import Mathlib

/-!
Verification of the task resource API of the TaskLog repository.

The repository exposes three HTTP handlers over a "tasks" document
collection:
  - `post` in src/pages/api/tasks/index.ts     (create),
  - `post` in src/pages/api/tasks/[id].ts      (update),
  - `del`  in src/pages/api/tasks/[id].ts      (delete).

Embedding choices:
  - A submitted form is a record of optional string values: `none` models
    an absent field (formData.get returning null, so ?.toString() yields
    undefined), `some s` a submitted string.
  - The JavaScript falsiness test `!title` on a `string | undefined`
    value is `falsyStr`: true exactly on `none` and `some ""`.
  - Each handler returns the HTTP response together with the list of
    store operations it issued (the trace).  A Boolean `storeFails`
    parameter models whether the single awaited store call throws; the
    call is issued (appears in the trace) whether or not it throws, and
    the catch block turns the throw into a 500 response.
  - `Response.redirect loc` models the Astro `redirect(loc)` helper,
    which produces a status 302 response with no body; `Response.error`
    carries the status and plain-text body of a `new Response(body,
    {status})`.
  - For the round-trip property the store is interpreted concretely as
    an association list from document ids to documents, with Firestore's
    semantics for the operations used here: `add` inserts under a fresh
    store-assigned id, `update` on an existing document overwrites every
    field named in the payload (all five, here) and throws when the
    document does not exist.
-/

namespace TaskLog

/-- A submitted form body: the five fields the handlers read, each
absent (`none`) or a string. -/
structure Form where
  title : Option String
  pubDate : Option String
  descr : Option String
  heroImage : Option String
  content : Option String
  deriving Repr, DecidableEq

/-- The document payload the handlers hand to the store: the object
literal `{title, pubDate, content, description, heroImage}` built in
both `post` handlers.  `descr` and `heroImage` are optional because the
source passes `formData.get(...)?.toString()` through unchanged, so an
absent form field arrives at the store as undefined, not as "". -/
structure TaskDoc where
  title : String
  pubDate : String
  content : Bool
  descr : Option String
  heroImage : Option String
  deriving Repr, DecidableEq

/-- A store call issued by a handler, with the collection it targets.
`add` carries no identifier: the store assigns one. -/
inductive StoreOp where
  | add (coll : String) (doc : TaskDoc)
  | update (coll : String) (id : String) (doc : TaskDoc)
  | delete (coll : String) (id : String)
  deriving Repr, DecidableEq

/-- An HTTP response: either `new Response(body, {status})` or the
Astro `redirect(loc)` helper (status 302, no body). -/
inductive Response where
  | error (status : Nat) (body : String)
  | redirect (loc : String)
  deriving Repr, DecidableEq

/-- The status code of a response; Astro's redirect helper defaults to
302. -/
def Response.status : Response → Nat
  | .error s _ => s
  | .redirect _ => 302

/-- JavaScript falsiness of a `string | undefined` value, as used in
the guards `if (!title || !pubDate)` and `if (!params.id)`: true on
undefined and on the empty string. -/
def falsyStr : Option String → Bool
  | none => true
  | some s => s.isEmpty

/-- The document the handlers build from the form: the object literal
`{title, pubDate, content, description, heroImage}`.  It is only built
after the required-field guard has passed, so the `getD ""` defaults
are never reached on the paths that use it.  `content` is the
comparison `formData.get("content") === "on"`. -/
def docOf (f : Form) : TaskDoc :=
  { title := f.title.getD ""
    pubDate := f.pubDate.getD ""
    content := f.content == some "on"
    descr := f.descr
    heroImage := f.heroImage }

namespace TasksIndex

/-- The `post` handler of src/pages/api/tasks/index.ts (create):
extract the five form fields, return 400 when title or pubDate is
falsy, otherwise issue one `add` into the "tasks" collection; a store
throw is caught and answered with 500, success with a redirect to
/dashboard. -/
def post (f : Form) (storeFails : Bool) : Response × List StoreOp :=
  if falsyStr f.title || falsyStr f.pubDate then
    (.error 400 "Missing required fields", [])
  else
    let doc := docOf f
    if storeFails then
      (.error 500 "Something went wrong", [.add "tasks" doc])
    else
      (.redirect "/dashboard", [.add "tasks" doc])

end TasksIndex

namespace TasksId

/-- The `post` handler of src/pages/api/tasks/[id].ts (update): same
field extraction and 400 guard as create, then a 404 guard on the path
parameter `params.id`, then one `update` by id in the "tasks"
collection; a store throw is caught and answered with 500, success with
a redirect to /dashboard. -/
def post (pid : Option String) (f : Form) (storeFails : Bool) :
    Response × List StoreOp :=
  if falsyStr f.title || falsyStr f.pubDate then
    (.error 400 "Missing required fields", [])
  else if falsyStr pid then
    (.error 404 "Cannot find task", [])
  else
    let doc := docOf f
    if storeFails then
      (.error 500 "Something went wrong", [.update "tasks" (pid.getD "") doc])
    else
      (.redirect "/dashboard", [.update "tasks" (pid.getD "") doc])

/-- The `del` handler of src/pages/api/tasks/[id].ts (delete).  Its
source destructures only `{params, redirect}` from the route context;
the request body `body` is part of the context but is never read, which
the embedding records by taking it as an unused argument.  A falsy
`params.id` yields 404 with no store call; otherwise one `delete` by id
in the "tasks" collection, with the same 500/redirect outcome mapping
as the other handlers. -/
def del (pid : Option String) (body : Form) (storeFails : Bool) :
    Response × List StoreOp :=
  if falsyStr pid then
    (.error 404 "Cannot find task", [])
  else if storeFails then
    (.error 500 "Something went wrong", [.delete "tasks" (pid.getD "")])
  else
    (.redirect "/dashboard", [.delete "tasks" (pid.getD "")])

end TasksId

/-! Concrete store interpretation, for the create-then-update
round-trip.  The "tasks" collection is an association list from
document ids to documents; ids are unique keys, so the list order is
immaterial and `storeAdd` may prepend. -/

/-- The "tasks" collection: document ids mapped to documents. -/
abbrev Store := List (String × TaskDoc)

/-- Firestore `add`: insert a document under a fresh store-assigned id
`nid`. -/
def storeAdd (s : Store) (nid : String) (d : TaskDoc) : Store :=
  (nid, d) :: s

/-- Read a document back by id. -/
def storeGet (s : Store) (id : String) : Option TaskDoc :=
  (s.find? (fun p => p.1 == id)).map (·.2)

/-- Firestore `doc(id).update(payload)` where the payload names all
five document fields: overwrite every matching document's fields with
the payload; throw (`none`) when no document with that id exists. -/
def storeUpdate (s : Store) (id : String) (d : TaskDoc) : Option Store :=
  if (s.find? (fun p => p.1 == id)).isSome then
    some (s.map (fun p => if p.1 == id then (p.1, d) else p))
  else
    none

/-- The create handler run against a concrete store, on the path where
the insert succeeds: the store assigns the fresh id `nid`. -/
def runCreate (s : Store) (nid : String) (f : Form) : Response × Store :=
  if falsyStr f.title || falsyStr f.pubDate then
    (.error 400 "Missing required fields", s)
  else
    (.redirect "/dashboard", storeAdd s nid (docOf f))

/-- The update handler run against a concrete store: the try/catch
around the awaited `update` call becomes a match on `storeUpdate`, the
throw branch answering 500 and leaving the store unchanged. -/
def runUpdate (s : Store) (pid : Option String) (f : Form) :
    Response × Store :=
  if falsyStr f.title || falsyStr f.pubDate then
    (.error 400 "Missing required fields", s)
  else if falsyStr pid then
    (.error 404 "Cannot find task", s)
  else
    match storeUpdate s (pid.getD "") (docOf f) with
    | some s2 => (.redirect "/dashboard", s2)
    | none => (.error 500 "Something went wrong", s)

/-! Theorems for the claims. -/

/-- Claim C1: for every create or update request in which title or
pubDate is missing or empty after string coercion, the handler returns
status exactly 400 and issues no store operation at all (in particular
no insert and no update). -/
theorem missing_required_fields_400 (f : Form) (pid : Option String) (sf : Bool)
    (h : falsyStr f.title = true ∨ falsyStr f.pubDate = true) :
    (TasksIndex.post f sf).1.status = 400 ∧ (TasksIndex.post f sf).2 = [] ∧
    (TasksId.post pid f sf).1.status = 400 ∧ (TasksId.post pid f sf).2 = [] := by
  rcases h with h | h <;>
    simp [TasksIndex.post, TasksId.post, Response.status, h]

/-- Witness for C1: a form with an absent title and a present pubDate
is rejected with 400 by both handlers, with an empty store trace. -/
theorem missing_required_fields_400_witness :
    (falsyStr (Form.mk none (some "2024-01-01") none none none).title = true ∨
      falsyStr (Form.mk none (some "2024-01-01") none none none).pubDate = true) ∧
    ((TasksIndex.post ⟨none, some "2024-01-01", none, none, none⟩ false).1.status = 400 ∧
      (TasksIndex.post ⟨none, some "2024-01-01", none, none, none⟩ false).2 = [] ∧
      (TasksId.post none ⟨none, some "2024-01-01", none, none, none⟩ false).1.status = 400 ∧
      (TasksId.post none ⟨none, some "2024-01-01", none, none, none⟩ false).2 = []) :=
  ⟨Or.inl (by decide),
    missing_required_fields_400 ⟨none, some "2024-01-01", none, none, none⟩ none false
      (Or.inl (by decide))⟩

/-- Claim C2: for every create request with non-falsy title and
pubDate, the handler issues exactly one store call, an `add` into the
"tasks" collection carrying the five-field document `docOf f` and no
client-supplied identifier (the `StoreOp.add` constructor carries no id
at all: the store assigns it), and on success responds with a redirect
to /dashboard. -/
theorem create_valid_inserts_once (f : Form)
    (ht : falsyStr f.title = false) (hp : falsyStr f.pubDate = false) :
    (TasksIndex.post f false).2 = [StoreOp.add "tasks" (docOf f)] ∧
    (TasksIndex.post f false).1 = Response.redirect "/dashboard" := by
  simp [TasksIndex.post, ht, hp]

/-- Witness for C2: a concrete valid create issues one insert and
redirects. -/
theorem create_valid_inserts_once_witness :
    falsyStr (Form.mk (some "A") (some "2024-01-01") none none none).title = false ∧
    falsyStr (Form.mk (some "A") (some "2024-01-01") none none none).pubDate = false ∧
    ((TasksIndex.post ⟨some "A", some "2024-01-01", none, none, none⟩ false).2 =
        [StoreOp.add "tasks" (docOf ⟨some "A", some "2024-01-01", none, none, none⟩)] ∧
      (TasksIndex.post ⟨some "A", some "2024-01-01", none, none, none⟩ false).1 =
        Response.redirect "/dashboard") :=
  ⟨by decide, by decide,
    create_valid_inserts_once ⟨some "A", some "2024-01-01", none, none, none⟩
      (by decide) (by decide)⟩

/-- Claim C3: in the update handler the required-field check precedes
the identifier check: falsy title or pubDate yields 400 even when the
path id is also absent; the status is 404 exactly when title and
pubDate are both non-falsy and the path id is absent or empty; and
whenever the path id is falsy no store operation is issued. -/
theorem update_validation_order (f : Form) (pid : Option String) (sf : Bool) :
    ((falsyStr f.title || falsyStr f.pubDate) = true →
      (TasksId.post pid f sf).1.status = 400) ∧
    ((TasksId.post pid f sf).1.status = 404 ↔
      ((falsyStr f.title || falsyStr f.pubDate) = false ∧ falsyStr pid = true)) ∧
    (falsyStr pid = true → (TasksId.post pid f sf).2 = []) := by
  by_cases h1 : (falsyStr f.title || falsyStr f.pubDate) = true
  · simp [TasksId.post, h1, Response.status]
  · have h1' : (falsyStr f.title || falsyStr f.pubDate) = false := by
      simpa using h1
    by_cases h2 : falsyStr pid = true
    · simp [TasksId.post, h1', h2, Response.status]
    · have h2' : falsyStr pid = false := by simpa using h2
      cases sf <;> simp [TasksId.post, h1', h2', Response.status]

/-- Witness for C3: with title and pubDate present but no path id, the
update handler answers 404 with an empty store trace; with title absent
and no path id, it answers 400. -/
theorem update_validation_order_witness :
    (TasksId.post none ⟨some "A", some "2024-01-01", none, none, none⟩ false).1.status = 404 ∧
    (TasksId.post none ⟨some "A", some "2024-01-01", none, none, none⟩ false).2 = [] ∧
    (TasksId.post none ⟨none, some "2024-01-01", none, none, none⟩ false).1.status = 400 :=
  ⟨(update_validation_order ⟨some "A", some "2024-01-01", none, none, none⟩ none false).2.1.mpr
      (by decide),
    (update_validation_order ⟨some "A", some "2024-01-01", none, none, none⟩ none false).2.2
      (by decide),
    (update_validation_order ⟨none, some "2024-01-01", none, none, none⟩ none false).1
      (by decide)⟩

/-- Claim C4: a delete request with an absent or empty path id returns
status exactly 404 and issues no store operation; with a present
(non-falsy) id it issues exactly one delete-by-id call against the
"tasks" collection. -/
theorem delete_id_guard (pid : Option String) (b : Form) (sf : Bool) :
    (falsyStr pid = true →
      (TasksId.del pid b sf).1.status = 404 ∧ (TasksId.del pid b sf).2 = []) ∧
    (falsyStr pid = false →
      (TasksId.del pid b sf).2 = [StoreOp.delete "tasks" (pid.getD "")]) := by
  constructor
  · intro h
    simp [TasksId.del, h, Response.status]
  · intro h
    cases sf <;> simp [TasksId.del, h]

/-- Witness for C4: deleting without an id answers 404 and touches
nothing; deleting with id "t1" issues exactly one delete of "t1". -/
theorem delete_id_guard_witness :
    ((TasksId.del none ⟨none, none, none, none, none⟩ false).1.status = 404 ∧
      (TasksId.del none ⟨none, none, none, none, none⟩ false).2 = []) ∧
    (TasksId.del (some "t1") ⟨none, none, none, none, none⟩ false).2 =
      [StoreOp.delete "tasks" "t1"] :=
  ⟨(delete_id_guard none ⟨none, none, none, none, none⟩ false).1 (by decide),
    (delete_id_guard (some "t1") ⟨none, none, none, none, none⟩ false).2 (by decide)⟩

/-- Claim C5: whenever a request passes validation and the single store
operation throws, each of the three handlers answers with status
exactly 500 and does not answer with a redirect to any location. -/
theorem store_failure_500 (f : Form) (pid : Option String) (b : Form)
    (ht : falsyStr f.title = false) (hp : falsyStr f.pubDate = false)
    (hid : falsyStr pid = false) :
    (TasksIndex.post f true).1.status = 500 ∧
    (∀ loc, (TasksIndex.post f true).1 ≠ Response.redirect loc) ∧
    (TasksId.post pid f true).1.status = 500 ∧
    (∀ loc, (TasksId.post pid f true).1 ≠ Response.redirect loc) ∧
    (TasksId.del pid b true).1.status = 500 ∧
    (∀ loc, (TasksId.del pid b true).1 ≠ Response.redirect loc) := by
  simp [TasksIndex.post, TasksId.post, TasksId.del, ht, hp, hid, Response.status]

/-- Witness for C5: on a concrete valid input with a throwing store,
all three handlers answer 500 and none redirects to /dashboard. -/
theorem store_failure_500_witness :
    falsyStr (Form.mk (some "A") (some "2024-01-01") none none none).title = false ∧
    falsyStr (some "t1") = false ∧
    ((TasksIndex.post ⟨some "A", some "2024-01-01", none, none, none⟩ true).1.status = 500 ∧
      (TasksIndex.post ⟨some "A", some "2024-01-01", none, none, none⟩ true).1 ≠
        Response.redirect "/dashboard" ∧
      (TasksId.post (some "t1") ⟨some "A", some "2024-01-01", none, none, none⟩ true).1.status = 500 ∧
      (TasksId.del (some "t1") ⟨none, none, none, none, none⟩ true).1.status = 500) := by
  have h := store_failure_500 ⟨some "A", some "2024-01-01", none, none, none⟩
    (some "t1") ⟨none, none, none, none, none⟩ (by decide) (by decide) (by decide)
  exact ⟨by decide, by decide, h.1, h.2.1 "/dashboard", h.2.2.1, h.2.2.2.2.1⟩

/-- Claim C6: on every well-formed create or update request, the
content field of the document handed to the store is true exactly when
the submitted content form value is literally the string "on"; and the
document issued by either handler is precisely `docOf f`. -/
theorem content_on_iff (f : Form) (i : String) (sf : Bool)
    (ht : falsyStr f.title = false) (hp : falsyStr f.pubDate = false)
    (hi : i.isEmpty = false) :
    ((docOf f).content = true ↔ f.content = some "on") ∧
    (TasksIndex.post f sf).2 = [StoreOp.add "tasks" (docOf f)] ∧
    (TasksId.post (some i) f sf).2 = [StoreOp.update "tasks" i (docOf f)] := by
  have hpid : falsyStr (some i) = false := hi
  refine ⟨?_, ?_, ?_⟩
  · simp [docOf]
  · cases sf <;> simp [TasksIndex.post, ht, hp]
  · cases sf <;> simp [TasksId.post, ht, hp, hpid]

/-- Witness for C6: with content submitted as "off" the stored flag is
false, and the trace equations hold at a concrete valid input. -/
theorem content_on_iff_witness :
    falsyStr (some "t1") = false ∧
    (((docOf ⟨some "A", some "2024-01-01", none, none, some "off"⟩).content = true ↔
        (Form.mk (some "A") (some "2024-01-01") none none (some "off")).content = some "on") ∧
      (TasksIndex.post ⟨some "A", some "2024-01-01", none, none, some "off"⟩ false).2 =
        [StoreOp.add "tasks" (docOf ⟨some "A", some "2024-01-01", none, none, some "off"⟩)] ∧
      (TasksId.post (some "t1") ⟨some "A", some "2024-01-01", none, none, some "off"⟩ false).2 =
        [StoreOp.update "tasks" "t1"
          (docOf ⟨some "A", some "2024-01-01", none, none, some "off"⟩)]) :=
  ⟨by decide,
    content_on_iff ⟨some "A", some "2024-01-01", none, none, some "off"⟩ "t1" false
      (by decide) (by decide) (by decide)⟩

/-- Claim C7: creating a document and then updating it through the
update handler on its id makes a read-back return exactly the update's
five field values: the update is a full overwrite of all five fields,
so values from creation — including ones the update replaces by empty
strings — do not survive. -/
theorem create_update_roundtrip (s : Store) (nid : String) (f1 f2 : Form)
    (hnid : nid.isEmpty = false)
    (h1t : falsyStr f1.title = false) (h1p : falsyStr f1.pubDate = false)
    (h2t : falsyStr f2.title = false) (h2p : falsyStr f2.pubDate = false) :
    (runCreate s nid f1).1 = Response.redirect "/dashboard" ∧
    (runUpdate (runCreate s nid f1).2 (some nid) f2).1 = Response.redirect "/dashboard" ∧
    storeGet (runUpdate (runCreate s nid f1).2 (some nid) f2).2 nid = some (docOf f2) := by
  have hpid : falsyStr (some nid) = false := hnid
  refine ⟨?_, ?_, ?_⟩ <;>
    simp [runCreate, runUpdate, storeAdd, storeUpdate, storeGet,
      h1t, h1p, h2t, h2p, hpid, List.find?]

/-- Witness for C7: the spec's round-trip instance — create with
title "A", date "2024-01-01", description "d", hero image "h", content
on, then update the same id with title "B", date "2024-02-02", empty
description and hero image, content absent — reads back exactly the
update's document. -/
theorem create_update_roundtrip_witness :
    ("task1" : String).isEmpty = false ∧
    storeGet
      (runUpdate
        (runCreate [] "task1"
          ⟨some "A", some "2024-01-01", some "d", some "h", some "on"⟩).2
        (some "task1")
        ⟨some "B", some "2024-02-02", some "", some "", none⟩).2
      "task1" =
      some (docOf ⟨some "B", some "2024-02-02", some "", some "", none⟩) :=
  ⟨by decide,
    (create_update_roundtrip [] "task1"
      ⟨some "A", some "2024-01-01", some "d", some "h", some "on"⟩
      ⟨some "B", some "2024-02-02", some "", some "", none⟩
      (by decide) (by decide) (by decide) (by decide) (by decide)).2.2⟩

/-- Claim C8: on every request where validation passes and the store
call succeeds, each of the three handlers answers with the redirect to
/dashboard — a `Response.redirect` value, whose constructor carries no
body — with status 302; no success path produces any other response. -/
theorem success_is_redirect (f : Form) (pid : Option String) (b : Form)
    (ht : falsyStr f.title = false) (hp : falsyStr f.pubDate = false)
    (hid : falsyStr pid = false) :
    (TasksIndex.post f false).1 = Response.redirect "/dashboard" ∧
    (TasksId.post pid f false).1 = Response.redirect "/dashboard" ∧
    (TasksId.del pid b false).1 = Response.redirect "/dashboard" ∧
    (TasksIndex.post f false).1.status = 302 ∧
    (TasksId.post pid f false).1.status = 302 ∧
    (TasksId.del pid b false).1.status = 302 := by
  simp [TasksIndex.post, TasksId.post, TasksId.del, ht, hp, hid, Response.status]

/-- Witness for C8: on a concrete valid input with a succeeding store,
all three handlers redirect to /dashboard. -/
theorem success_is_redirect_witness :
    falsyStr (Form.mk (some "A") (some "2024-01-01") none none none).title = false ∧
    falsyStr (some "t1") = false ∧
    ((TasksIndex.post ⟨some "A", some "2024-01-01", none, none, none⟩ false).1 =
        Response.redirect "/dashboard" ∧
      (TasksId.post (some "t1") ⟨some "A", some "2024-01-01", none, none, none⟩ false).1 =
        Response.redirect "/dashboard" ∧
      (TasksId.del (some "t1") ⟨none, none, none, none, none⟩ false).1 =
        Response.redirect "/dashboard") := by
  have h := success_is_redirect ⟨some "A", some "2024-01-01", none, none, none⟩
    (some "t1") ⟨none, none, none, none, none⟩ (by decide) (by decide) (by decide)
  exact ⟨by decide, by decide, h.1, h.2.1, h.2.2.1⟩

/-- Claim C9: on a valid create or update, each optional field that is
absent from the form — description alone, heroImage alone, or both —
is handed to the store as `none` (undefined), never as the empty
string; and since `TaskDoc` is a record of all five fields, the issued
payload names all five fields.  The two fields are covered by
independent implications, so a request with exactly one optional
absent is in scope. -/
theorem absent_optionals_stay_undefined (f : Form) (i : String) (sf : Bool)
    (ht : falsyStr f.title = false) (hp : falsyStr f.pubDate = false)
    (hi : i.isEmpty = false) :
    (f.descr = none → (docOf f).descr = none ∧ (docOf f).descr ≠ some "") ∧
    (f.heroImage = none →
      (docOf f).heroImage = none ∧ (docOf f).heroImage ≠ some "") ∧
    (TasksIndex.post f sf).2 = [StoreOp.add "tasks" (docOf f)] ∧
    (TasksId.post (some i) f sf).2 = [StoreOp.update "tasks" i (docOf f)] := by
  have hpid : falsyStr (some i) = false := hi
  refine ⟨?_, ?_, ?_, ?_⟩
  · intro hd
    simp [docOf, hd]
  · intro hh
    simp [docOf, hh]
  · cases sf <;> simp [TasksIndex.post, ht, hp]
  · cases sf <;> simp [TasksId.post, ht, hp, hpid]

/-- Witness for C9: a valid form with description absent but heroImage
present yields a document whose description is none and not the empty
string, and the trace equations hold concretely. -/
theorem absent_optionals_stay_undefined_witness :
    (Form.mk (some "A") (some "2024-01-01") none (some "h") none).descr = none ∧
    ((docOf ⟨some "A", some "2024-01-01", none, some "h", none⟩).descr = none ∧
      (docOf ⟨some "A", some "2024-01-01", none, some "h", none⟩).descr ≠ some "" ∧
      (TasksId.post (some "t1") ⟨some "A", some "2024-01-01", none, some "h", none⟩ false).2 =
        [StoreOp.update "tasks" "t1"
          (docOf ⟨some "A", some "2024-01-01", none, some "h", none⟩)]) := by
  have h := absent_optionals_stay_undefined ⟨some "A", some "2024-01-01", none, some "h", none⟩
    "t1" false (by decide) (by decide) (by decide)
  exact ⟨by decide, (h.1 (by decide)).1, (h.1 (by decide)).2, h.2.2.2⟩

/-- Claim C10: the delete handler's whole outcome — response and store
trace alike — depends only on the path id and the store behavior, never
on the request body: two delete requests differing only in their bodies
produce identical results.  The source destructures only params and
redirect from the route context and never touches the request. -/
theorem del_ignores_request_body (pid : Option String) (b1 b2 : Form) (sf : Bool) :
    TasksId.del pid b1 sf = TasksId.del pid b2 sf := rfl

end TaskLog
